import Mathlib

/-!
Verification of the YYC³ Python SDK example client
(src/examples/python-sdk/index.py) against its specification.

The client is embedded shallowly: JSON bodies are a `Json` inductive,
the aiohttp transport is a function from requests to responses or
Python-level errors, and each client method is a pure function that
threads the client state explicitly and additionally returns the list
of requests that reached the transport (the observable network trace).
`asyncio.gather` is modelled over the list of settled task results
together with an explicit completion schedule.
-/

/-- JSON values, the shape of request and response bodies. -/
inductive Json where
  | null
  | bool (b : Bool)
  | num (n : Int)
  | str (s : String)
  | arr (xs : List Json)
  | obj (fields : List (String × Json))
deriving Repr

/-- Association-list lookup used for JSON object field access. -/
def lookupField : List (String × Json) → String → Option Json
  | [], _ => none
  | (k, v) :: rest, key => if k = key then some v else lookupField rest key

/-- Python-level exceptions the embedded client can raise. -/
inductive PyError where
  | exn (msg : String)
  | keyError (key : String)
  | typeError (key : String)
  | attributeError (key : String)
  | clientError (msg : String)
  | decodeError (msg : String)
deriving Repr, DecidableEq

/-- Python `dict.get(key)` on a decoded JSON value: `none` when the key is
absent; accessing `.get` on a non-dict raises `AttributeError`. -/
def dictGet : Json → String → Except PyError (Option Json)
  | .obj fs, key => .ok (lookupField fs key)
  | _, key => .error (.attributeError key)

/-- Python subscript `data[key]`: `KeyError` when the key is absent,
`TypeError` when the value is not a dict. -/
def dictItem : Json → String → Except PyError Json
  | .obj fs, key =>
    match lookupField fs key with
    | some v => .ok v
    | none => .error (.keyError key)
  | _, key => .error (.typeError key)

/-- Python truthiness of a `dict.get` result: `None` and missing keys are
falsy, numbers are truthy iff nonzero, strings and containers iff nonempty. -/
def truthy : Option Json → Bool
  | none => false
  | some .null => false
  | some (.bool b) => b
  | some (.num n) => n != 0
  | some (.str s) => s != ""
  | some (.arr xs) => !xs.isEmpty
  | some (.obj fs) => !fs.isEmpty

/-- Python `str()` of a decoded JSON value, as invoked by the f-string in
`_get_headers`.  On the values the client ever renders — `None` and the
wire-contract token strings — this is exact.  The only place it is applied
is the token slot, which under the wire contract holds a string, so the
rendering of container values (Python would use repr) is collapsed to a
marker and is unreachable in every property below. -/
def jsonStr : Json → String
  | .null => "None"
  | .bool true => "True"
  | .bool false => "False"
  | .num n => toString n
  | .str s => s
  | .arr _ => "[...]"
  | .obj _ => "\x7b...\x7d"

/-- Python f-string rendering of the `token` slot (`Optional`): the slot is
`None` initially, and otherwise holds the JSON value found at `data.token`
of a login response. -/
def pyStr : Option Json → String
  | none => "None"
  | some j => jsonStr j

/-- One HTTP request as handed to the aiohttp session: method, full URL,
extra headers, and optional JSON body. -/
structure HttpRequest where
  method : String
  url : String
  headers : List (String × String)
  body : Option Json
deriving Repr

/-- One HTTP response: status code and the JSON-decoded body. -/
structure HttpResponse where
  status : Nat
  body : Json
deriving Repr

/-- The network environment: what the remote service (through aiohttp and
`response.json()`) yields for each request — a decoded response, or a
transport/decode failure raised as an exception. -/
def HttpTransport : Type := HttpRequest → Except PyError HttpResponse

/-- The aiohttp `ClientSession` handle owned by a client, reduced to its
open/closed observable. -/
structure ClientSession where
  closed : Bool
deriving Repr, DecidableEq

/-- State of a `YYC3Client` instance: `base_url` and the `token` slot from
`__init__`, plus the aiohttp session handle (absent until `__aenter__`). -/
structure YYC3Client where
  base_url : String
  token : Option Json
  session : Option ClientSession
deriving Repr

/-- `YYC3Client.__init__`: stores the base URL; `token` and `session` start
as `None`. -/
def mkClient (base_url : String) : YYC3Client :=
  { base_url := base_url, token := none, session := none }

/-- `YYC3Client.__aenter__`: opens a fresh `aiohttp.ClientSession`. -/
def aenter (c : YYC3Client) : YYC3Client :=
  { c with session := some { closed := false } }

/-- `aiohttp.ClientSession.close()`: marks the session closed; closing an
already-closed session returns immediately and never raises. -/
def sessionClose (_s : ClientSession) : ClientSession :=
  { closed := true }

/-- `YYC3Client.__aexit__`: closes the session if one was opened. -/
def aexit (c : YYC3Client) : YYC3Client :=
  match c.session with
  | some s => { c with session := some (sessionClose s) }
  | none => c

/-- The `async with YYC3Client(...) as client:` scope: `__aenter__`, then the
body, then `__aexit__` on every exit path — also when the body's result is an
exception. -/
def withClient (base_url : String) (body : YYC3Client → Except PyError α × YYC3Client) :
    Except PyError α × YYC3Client :=
  let c := aenter (mkClient base_url)
  let r := body c
  (r.1, aexit r.2)

/-- `YYC3Client._get_headers`: the headers attached to every endpoint call,
rendering the token slot by string interpolation. -/
def get_headers (c : YYC3Client) : List (String × String) :=
  [("Content-Type", "application/json"),
   ("Authorization", "Bearer " ++ pyStr c.token)]

/-- Sending one request through `self.session`: `AttributeError` when the
client was never entered (`session` is `None`), a raised error when the
session is closed, and otherwise the transport's answer.  The second
component is the network trace: the requests that reached the transport. -/
def sessionSend (t : HttpTransport) (c : YYC3Client) (req : HttpRequest) :
    Except PyError HttpResponse × List HttpRequest :=
  match c.session with
  | none => (.error (.attributeError "session"), [])
  | some s =>
    if s.closed then (.error (.exn "Session is closed"), [])
    else (t req, [req])

/-- The request built by `YYC3Client.login`. -/
def loginRequest (base_url email password : String) : HttpRequest :=
  { method := "POST"
    url := base_url ++ "/api/v1/auth/login"
    headers := []
    body := some (.obj [("email", .str email), ("password", .str password)]) }

/-- `YYC3Client.login`: POSTs the credentials, and on a body whose `success`
field is truthy stores `data["data"]["token"]` into the token slot and
returns the whole decoded body; otherwise raises `Exception("登录失败")`.
The HTTP status code is never consulted. -/
def login (t : HttpTransport) (c : YYC3Client) (email password : String) :
    Except PyError Json × YYC3Client × List HttpRequest :=
  let req := loginRequest c.base_url email password
  match sessionSend t c req with
  | (.error e, tr) => (.error e, c, tr)
  | (.ok resp, tr) =>
    let data := resp.body
    match dictGet data "success" with
    | .error e => (.error e, c, tr)
    | .ok sv =>
      if truthy sv then
        match dictItem data "data" with
        | .error e => (.error e, c, tr)
        | .ok d =>
          match dictItem d "token" with
          | .error e => (.error e, c, tr)
          | .ok tok => (.ok data, { c with token := some tok }, tr)
      else
        (.error (.exn "登录失败"), c, tr)

/-- The request built by `YYC3Client.reason`; `constraints or []`,
`objectives or []` and `options or \x7b\x7d` collapse `None` to the empty
container. -/
def reasonRequest (c : YYC3Client) (context : String)
    (constraints objectives : Option (List String)) (options : Option Json) : HttpRequest :=
  { method := "POST"
    url := c.base_url ++ "/api/v1/engine/reason"
    headers := get_headers c
    body := some (.obj
      [("context", .str context),
       ("constraints", .arr ((constraints.getD []).map .str)),
       ("objectives", .arr ((objectives.getD []).map .str)),
       ("options", options.getD (.obj []))]) }

/-- `YYC3Client.reason`: one POST to the reasoning endpoint; the decoded body
is returned unconditionally — neither the HTTP status nor the body's
`success` field is inspected, and the client state is untouched. -/
def reason (t : HttpTransport) (c : YYC3Client) (context : String)
    (constraints objectives : Option (List String)) (options : Option Json) :
    Except PyError Json × YYC3Client × List HttpRequest :=
  match sessionSend t c (reasonRequest c context constraints objectives options) with
  | (.error e, tr) => (.error e, c, tr)
  | (.ok resp, tr) => (.ok resp.body, c, tr)

/-- The request built by `YYC3Client.generate_text`. -/
def generateTextRequest (c : YYC3Client) (prompt : String) (max_tokens : Int) : HttpRequest :=
  { method := "POST"
    url := c.base_url ++ "/api/v1/model/generate"
    headers := get_headers c
    body := some (.obj [("prompt", .str prompt), ("maxTokens", .num max_tokens)]) }

/-- `YYC3Client.generate_text`: one POST to the generation endpoint; the
decoded body is returned unconditionally. -/
def generate_text (t : HttpTransport) (c : YYC3Client) (prompt : String) (max_tokens : Int) :
    Except PyError Json × YYC3Client × List HttpRequest :=
  match sessionSend t c (generateTextRequest c prompt max_tokens) with
  | (.error e, tr) => (.error e, c, tr)
  | (.ok resp, tr) => (.ok resp.body, c, tr)

/-- The request built by `YYC3Client.get_metrics`. -/
def metricsRequest (c : YYC3Client) : HttpRequest :=
  { method := "GET"
    url := c.base_url ++ "/api/v1/analytics/metrics"
    headers := get_headers c
    body := none }

/-- `YYC3Client.get_metrics`: one GET to the metrics endpoint; the decoded
body is returned unconditionally. -/
def get_metrics (t : HttpTransport) (c : YYC3Client) :
    Except PyError Json × YYC3Client × List HttpRequest :=
  match sessionSend t c (metricsRequest c) with
  | (.error e, tr) => (.error e, c, tr)
  | (.ok resp, tr) => (.ok resp.body, c, tr)

/-- The request built by `YYC3Client.get_learning_data`. -/
def learningDataRequest (c : YYC3Client) : HttpRequest :=
  { method := "GET"
    url := c.base_url ++ "/api/v1/learning/data"
    headers := get_headers c
    body := none }

/-- `YYC3Client.get_learning_data`: one GET to the learning-data endpoint;
the decoded body is returned unconditionally. -/
def get_learning_data (t : HttpTransport) (c : YYC3Client) :
    Except PyError Json × YYC3Client × List HttpRequest :=
  match sessionSend t c (learningDataRequest c) with
  | (.error e, tr) => (.error e, c, tr)
  | (.ok resp, tr) => (.ok resp.body, c, tr)

/-- Inner loop of the `asyncio.gather(*tasks)` model: tasks settle in the
order given by the completion schedule; a settled success is written into
the result slot of the task's input index, and the first settled exception
resolves the whole future with that exception at once — remaining entries
of the schedule are never consulted (`return_exceptions` is left at its
default `False`). -/
def fillSlots (tasks : List (Except PyError α)) :
    List Nat → List (Option α) → Except PyError (List (Option α))
  | [], slots => .ok slots
  | i :: rest, slots =>
    match tasks.get? i with
    | some (.error e) => .error e
    | some (.ok a) => fillSlots tasks rest (slots.set i (some a))
    | none => fillSlots tasks rest slots

/-- `await asyncio.gather(*tasks)` with default arguments: given the settled
result of each task (in input order) and a completion schedule listing the
indices in the order they settle, either every task settled successfully
and the results are read out in input order, or the first exception in
completion order is raised. -/
def asyncioGather (tasks : List (Except PyError α)) (sched : List Nat) :
    Except PyError (List α) :=
  match fillSlots tasks sched (List.replicate tasks.length none) with
  | .error e => .error e
  | .ok slots => .ok (slots.filterMap id)

/-- The per-scenario context string of `advanced_example`. -/
def sceneContext (i : Nat) : String := "优化项目开发流程 - 场景" ++ toString i

/-- The batch built by `advanced_example`: three `reason` dispatches over
the same client, listed in input order; each entry is that dispatch's
settled result. -/
def advancedTasks (t : HttpTransport) (c : YYC3Client) : List (Except PyError Json) :=
  (List.range 3).map (fun i =>
    (reason t c (sceneContext i)
      (some ["时间限制", "预算限制"]) (some ["效率提升", "质量保证"]) none).1)

/-- A transport whose every response has the given status and body. -/
def mockTransport (status : Nat) (body : Json) : HttpTransport :=
  fun _ => .ok { status := status, body := body }

/-- A canonical successful reasoning response body. -/
def reasonOkBody : Json :=
  .obj [("success", .bool true),
        ("data", .obj [("result", .obj [("conclusion", .str "ok"), ("confidence", .num 1)])])]

/-- A canonical successful login response body carrying token `T1`. -/
def loginOkBody : Json :=
  .obj [("success", .bool true), ("data", .obj [("token", .str "T1")])]

/-- A client that has been entered (`async with`) and has completed a
successful login that stored the token `T1`. -/
def loggedInClient : YYC3Client :=
  { aenter (mkClient "http://localhost:3200") with token := some (.str "T1") }

/-- A login response body whose status line the server marked as a failure
but whose body carries the success marker and the token `T2`. -/
def loginT2Body : Json :=
  .obj [("success", .bool true), ("data", .obj [("token", .str "T2")])]

/-- An API-level failure body: success marker false, message present. -/
def apiFailBody : Json :=
  .obj [("success", .bool false), ("message", .str "权限不足")]

/-- A transport that fails the dispatch whose context is scenario 1 of
`advanced_example` with a transport-level error, and answers every other
request successfully. -/
def flakyScene1 : HttpTransport := fun req =>
  match req.body with
  | some (.obj (("context", Json.str s) :: _)) =>
    if s = sceneContext 1 then .error (.clientError "Connection reset")
    else .ok { status := 200, body := reasonOkBody }
  | _ => .ok { status := 200, body := reasonOkBody }

/-- A transport that fails the dispatch whose context is scenario 0 of
`advanced_example` with a transport-level error, and answers every other
request successfully. -/
def flakyScene0 : HttpTransport := fun req =>
  match req.body with
  | some (.obj (("context", Json.str s) :: _)) =>
    if s = sceneContext 0 then .error (.clientError "连接超时")
    else .ok { status := 200, body := reasonOkBody }
  | _ => .ok { status := 200, body := reasonOkBody }

/-- A mock service for the login-then-call scenario: the login path answers
with `loginOkBody` (token `T1`), every other path answers with
`reasonOkBody`. -/
def demoTransport : HttpTransport := fun req =>
  if req.url = "http://h/api/v1/auth/login" then .ok { status := 200, body := loginOkBody }
  else .ok { status := 200, body := reasonOkBody }

/-- The network trace of one dispatch holds at most one request: no
operation ever retries. -/
theorem sessionSend_trace_le_one (t : HttpTransport) (c : YYC3Client) (req : HttpRequest) :
    (sessionSend t c req).2.length ≤ 1 := by
  unfold sessionSend
  cases c.session with
  | none => simp
  | some s =>
    by_cases hs : s.closed <;> simp [hs]

/-- C8: Session close/release is idempotent — `close` twice on the same
Session does not raise and does not error (the model's `sessionClose` and
the client's `__aexit__` are both idempotent) — and release runs on every
exit path of the scoped acquisition: the scope applies `__aexit__` to the
body's final state whether the body's result is a value or an exception. -/
theorem close_idempotent_and_released_on_all_paths (α : Type) :
    (∀ s : ClientSession, sessionClose (sessionClose s) = sessionClose s) ∧
    (∀ c : YYC3Client, aexit (aexit c) = aexit c) ∧
    (∀ (base : String) (body : YYC3Client → Except PyError α × YYC3Client),
      (withClient base body).2 = aexit (body (aenter (mkClient base))).2) := by
  refine ⟨fun s => rfl, fun c => ?_, fun base body => rfl⟩
  cases hc : c.session with
  | none => simp [aexit, hc]
  | some s => simp [aexit, hc, sessionClose]

/-- C9: no single dispatch (`reason`, `generate_text`, `get_metrics`,
`get_learning_data`) ever retries or mutates the client's token slot — or
any other client state: the state after the call is the state before it,
and at most one request reaches the transport, whether the call succeeds
or fails. -/
theorem dispatch_preserves_state_and_never_retries
    (t : HttpTransport) (c : YYC3Client) (context : String)
    (constraints objectives : Option (List String)) (options : Option Json)
    (prompt : String) (max_tokens : Int) :
    ((reason t c context constraints objectives options).2.1 = c ∧
      (reason t c context constraints objectives options).2.2.length ≤ 1) ∧
    ((generate_text t c prompt max_tokens).2.1 = c ∧
      (generate_text t c prompt max_tokens).2.2.length ≤ 1) ∧
    ((get_metrics t c).2.1 = c ∧ (get_metrics t c).2.2.length ≤ 1) ∧
    ((get_learning_data t c).2.1 = c ∧ (get_learning_data t c).2.2.length ≤ 1) := by
  refine ⟨⟨?_, ?_⟩, ⟨?_, ?_⟩, ⟨?_, ?_⟩, ?_, ?_⟩ <;>
    first
    | (unfold reason
       rcases h : sessionSend t c (reasonRequest c context constraints objectives options)
         with ⟨r | r, tr⟩ <;>
         simp [h] <;>
         simpa [h] using sessionSend_trace_le_one t c
           (reasonRequest c context constraints objectives options))
    | (unfold generate_text
       rcases h : sessionSend t c (generateTextRequest c prompt max_tokens)
         with ⟨r | r, tr⟩ <;>
         simp [h] <;>
         simpa [h] using sessionSend_trace_le_one t c (generateTextRequest c prompt max_tokens))
    | (unfold get_metrics
       rcases h : sessionSend t c (metricsRequest c) with ⟨r | r, tr⟩ <;>
         simp [h] <;>
         simpa [h] using sessionSend_trace_le_one t c (metricsRequest c))
    | (unfold get_learning_data
       rcases h : sessionSend t c (learningDataRequest c) with ⟨r | r, tr⟩ <;>
         simp [h] <;>
         simpa [h] using sessionSend_trace_le_one t c (learningDataRequest c))

/-- C10: on a client whose token slot is empty, `_get_headers` still returns
an Authorization header whose value is the literal string `Bearer None`
(string interpolation of the empty slot), and the authenticated endpoint
methods send the request over the network with exactly that header rather
than failing locally: the request reaches the transport and the call's
result is the transport's decoded body. -/
theorem no_token_header_is_bearer_none_and_sent
    (base : String) (t : HttpTransport) (resp : HttpResponse)
    (h : t (metricsRequest (aenter (mkClient base))) = .ok resp) :
    get_headers (aenter (mkClient base)) =
      [("Content-Type", "application/json"), ("Authorization", "Bearer None")] ∧
    (get_metrics t (aenter (mkClient base))).2.2 = [metricsRequest (aenter (mkClient base))] ∧
    (get_metrics t (aenter (mkClient base))).1 = .ok resp.body := by
  simp only [aenter, mkClient] at h
  refine ⟨rfl, ?_, ?_⟩ <;>
    simp [get_metrics, sessionSend, aenter, mkClient, h]

/-- Witness for C10 at a concrete client and mock transport. -/
theorem no_token_header_is_bearer_none_and_sent_witness :
    get_headers (aenter (mkClient "http://localhost:3200")) =
      [("Content-Type", "application/json"), ("Authorization", "Bearer None")] ∧
    (get_metrics (mockTransport 200 reasonOkBody) (aenter (mkClient "http://localhost:3200"))).2.2 =
      [metricsRequest (aenter (mkClient "http://localhost:3200"))] ∧
    (get_metrics (mockTransport 200 reasonOkBody) (aenter (mkClient "http://localhost:3200"))).1 =
      .ok reasonOkBody :=
  no_token_header_is_bearer_none_and_sent "http://localhost:3200"
    (mockTransport 200 reasonOkBody) { status := 200, body := reasonOkBody } rfl

/-- C1 counterexample: on a freshly entered client with no stored token, a
`reason` call does not fail with any authentication error before network
activity — exactly one request reaches the transport and the call returns
the transport's body. -/
theorem reason_without_token_reaches_transport :
    (reason (mockTransport 200 reasonOkBody) (aenter (mkClient "http://localhost:3200"))
      "测试推理" none none none).1 = Except.ok reasonOkBody ∧
    (reason (mockTransport 200 reasonOkBody) (aenter (mkClient "http://localhost:3200"))
      "测试推理" none none none).2.2.length = 1 :=
  ⟨rfl, rfl⟩

/-- C1 (amended): on a client with no stored token, an authenticated call
does not fail locally with an authentication error: the request is sent to
the transport carrying the header `Authorization: Bearer None`, and the
call's outcome is whatever the transport answers. -/
theorem reason_without_token_sends_bearer_none
    (base context : String) (t : HttpTransport) (resp : HttpResponse)
    (h : t (reasonRequest (aenter (mkClient base)) context none none none) = .ok resp) :
    reason t (aenter (mkClient base)) context none none none =
      (.ok resp.body, aenter (mkClient base),
        [reasonRequest (aenter (mkClient base)) context none none none]) ∧
    (reasonRequest (aenter (mkClient base)) context none none none).headers =
      [("Content-Type", "application/json"), ("Authorization", "Bearer None")] := by
  simp only [aenter, mkClient] at h
  refine ⟨?_, rfl⟩
  simp [reason, sessionSend, aenter, mkClient, h]

/-- Witness for the amended C1 at a concrete client and mock transport. -/
theorem reason_without_token_sends_bearer_none_witness :
    reason (mockTransport 200 reasonOkBody) (aenter (mkClient "http://localhost:3200"))
      "测试推理" none none none =
      (.ok reasonOkBody, aenter (mkClient "http://localhost:3200"),
        [reasonRequest (aenter (mkClient "http://localhost:3200")) "测试推理" none none none]) ∧
    (reasonRequest (aenter (mkClient "http://localhost:3200")) "测试推理" none none none).headers =
      [("Content-Type", "application/json"), ("Authorization", "Bearer None")] :=
  reason_without_token_sends_bearer_none "http://localhost:3200" "测试推理"
    (mockTransport 200 reasonOkBody) { status := 200, body := reasonOkBody } rfl

/-- C2 counterexample: a login response with a failure HTTP status (500)
whose body nevertheless carries the success marker is treated as a
successful login — the call returns the body and overwrites the previously
stored token `T1` with `T2`, where the claim demands an authentication
failure that leaves the stored token untouched. -/
theorem login_failure_status_still_stores_token :
    (login (mockTransport 500 loginT2Body) loggedInClient "user@example.com" "pw").1 =
      Except.ok loginT2Body ∧
    loggedInClient.token = some (.str "T1") ∧
    (login (mockTransport 500 loginT2Body) loggedInClient "user@example.com" "pw").2.1.token =
      some (.str "T2") :=
  ⟨rfl, rfl, rfl⟩

/-- C2 (amended): only the response body's success marker decides login
failure — the HTTP status is never consulted.  For every login whose
response body lacks a truthy success marker, the call raises
`Exception("登录失败")` and leaves the whole client state, in particular
any previously stored token, unchanged. -/
theorem login_unsuccessful_body_raises_and_preserves_token
    (t : HttpTransport) (c : YYC3Client) (email password : String)
    (resp : HttpResponse) (sv : Option Json)
    (hopen : c.session = some { closed := false })
    (hresp : t (loginRequest c.base_url email password) = .ok resp)
    (hget : dictGet resp.body "success" = .ok sv)
    (hfalse : truthy sv = false) :
    login t c email password =
      (.error (.exn "登录失败"), c, [loginRequest c.base_url email password]) := by
  unfold login sessionSend
  rw [hopen]
  simp [hresp, hget, hfalse]

/-- Witness for the amended C2 at a concrete failing login. -/
theorem login_unsuccessful_body_raises_and_preserves_token_witness :
    login (mockTransport 200 apiFailBody) loggedInClient "invalid@example.com" "wrong-password" =
      (.error (.exn "登录失败"), loggedInClient,
        [loginRequest loggedInClient.base_url "invalid@example.com" "wrong-password"]) :=
  login_unsuccessful_body_raises_and_preserves_token
    (mockTransport 200 apiFailBody) loggedInClient "invalid@example.com" "wrong-password"
    { status := 200, body := apiFailBody } (some (.bool false)) rfl rfl rfl rfl

/-- C4 counterexample: a `reason` dispatch whose response has a non-2xx
HTTP status (403) and a body whose success marker is false does not fail
with any APIError — the decoded failure body is returned as the call's
successful result. -/
theorem reason_returns_failure_body_as_result :
    (reason (mockTransport 403 apiFailBody) loggedInClient "测试推理" none none none).1 =
      Except.ok apiFailBody :=
  rfl

/-- C4 (amended): the endpoint methods inspect neither the HTTP status nor
the body's success marker: whenever the transport yields a decoded
response, its body is returned as the call's result, whatever the status
and whatever the body — no APIError is ever raised. -/
theorem dispatch_returns_decoded_body_unconditionally
    (t : HttpTransport) (c : YYC3Client) (context : String)
    (resp₁ resp₂ : HttpResponse)
    (hopen : c.session = some { closed := false })
    (hreason : t (reasonRequest c context none none none) = .ok resp₁)
    (hmetrics : t (metricsRequest c) = .ok resp₂) :
    (reason t c context none none none).1 = .ok resp₁.body ∧
    (get_metrics t c).1 = .ok resp₂.body := by
  constructor
  · unfold reason sessionSend
    rw [hopen]
    simp [hreason]
  · unfold get_metrics sessionSend
    rw [hopen]
    simp [hmetrics]

/-- Witness for the amended C4 at a concrete failure response. -/
theorem dispatch_returns_decoded_body_unconditionally_witness :
    (reason (mockTransport 403 apiFailBody) loggedInClient "场景" none none none).1 =
      Except.ok apiFailBody ∧
    (get_metrics (mockTransport 403 apiFailBody) loggedInClient).1 = Except.ok apiFailBody :=
  dispatch_returns_decoded_body_unconditionally
    (mockTransport 403 apiFailBody) loggedInClient "场景"
    { status := 403, body := apiFailBody } { status := 403, body := apiFailBody } rfl rfl rfl

/-- C5 counterexample: a concrete successful login stores the token `T1`
but returns the whole decoded response body — and that body is not the
token, so login does not return the extracted token as its result. -/
theorem login_returns_full_body_not_token :
    (login (mockTransport 200 loginOkBody) (aenter (mkClient "b")) "user@example.com" "pw").1 =
      Except.ok loginOkBody ∧
    (login (mockTransport 200 loginOkBody) (aenter (mkClient "b")) "user@example.com" "pw").2.1.token =
      some (.str "T1") ∧
    loginOkBody ≠ Json.str "T1" :=
  ⟨rfl, rfl, by simp [loginOkBody]⟩

/-- C5 (amended): a login whose response carries a truthy success marker
POSTs the credentials as the JSON body (email, password) to the fixed
login path, extracts the token from the response's `data.token` field,
stores it in the client's single token slot overwriting any prior token,
and returns the full decoded response body (not the bare token). -/
theorem login_success_stores_token_returns_body
    (t : HttpTransport) (c : YYC3Client) (email password : String)
    (resp : HttpResponse) (sv : Option Json) (d tok : Json)
    (hopen : c.session = some { closed := false })
    (hresp : t (loginRequest c.base_url email password) = .ok resp)
    (hget : dictGet resp.body "success" = .ok sv)
    (htrue : truthy sv = true)
    (hdata : dictItem resp.body "data" = .ok d)
    (htok : dictItem d "token" = .ok tok) :
    login t c email password =
      (.ok resp.body, { c with token := some tok }, [loginRequest c.base_url email password]) ∧
    (loginRequest c.base_url email password).method = "POST" ∧
    (loginRequest c.base_url email password).url = c.base_url ++ "/api/v1/auth/login" ∧
    (loginRequest c.base_url email password).body =
      some (.obj [("email", .str email), ("password", .str password)]) := by
  refine ⟨?_, rfl, rfl, rfl⟩
  unfold login sessionSend
  rw [hopen]
  simp [hresp, hget, htrue, hdata, htok]

/-- Witness for the amended C5 at a concrete successful login that
overwrites a previously stored token. -/
theorem login_success_stores_token_returns_body_witness :
    login (mockTransport 200 loginT2Body) loggedInClient "user@example.com" "pw" =
      (.ok loginT2Body, { loggedInClient with token := some (.str "T2") },
        [loginRequest loggedInClient.base_url "user@example.com" "pw"]) ∧
    (loginRequest loggedInClient.base_url "user@example.com" "pw").method = "POST" ∧
    (loginRequest loggedInClient.base_url "user@example.com" "pw").url =
      loggedInClient.base_url ++ "/api/v1/auth/login" ∧
    (loginRequest loggedInClient.base_url "user@example.com" "pw").body =
      some (.obj [("email", .str "user@example.com"), ("password", .str "pw")]) :=
  login_success_stores_token_returns_body
    (mockTransport 200 loginT2Body) loggedInClient "user@example.com" "pw"
    { status := 200, body := loginT2Body } (some (.bool true))
    (.obj [("token", .str "T2")]) (.str "T2") rfl rfl rfl rfl rfl rfl

/-- C6: after a successful login that stored the string token `s`, an
immediately following authenticated call succeeds, and its outgoing
request carries the headers `Authorization: Bearer s` (the token returned
by login) and `Content-Type: application/json`. -/
theorem login_then_call_carries_bearer_token
    (t : HttpTransport) (base email password context s : String)
    (respL respR : HttpResponse) (sv : Option Json) (d : Json)
    (hL : t (loginRequest base email password) = .ok respL)
    (hget : dictGet respL.body "success" = .ok sv)
    (htrue : truthy sv = true)
    (hdata : dictItem respL.body "data" = .ok d)
    (htok : dictItem d "token" = .ok (.str s))
    (hR : t (reasonRequest (login t (aenter (mkClient base)) email password).2.1
            context none none none) = .ok respR) :
    (login t (aenter (mkClient base)) email password).1 = .ok respL.body ∧
    (reason t (login t (aenter (mkClient base)) email password).2.1
        context none none none).1 = .ok respR.body ∧
    (reasonRequest (login t (aenter (mkClient base)) email password).2.1
        context none none none).headers =
      [("Content-Type", "application/json"), ("Authorization", "Bearer " ++ s)] := by
  have hc : (login t (aenter (mkClient base)) email password).2.1 =
      { base_url := base, token := some (.str s), session := some { closed := false } } := by
    unfold login sessionSend aenter mkClient
    simp [hL, hget, htrue, hdata, htok]
  have hlog : (login t (aenter (mkClient base)) email password).1 = .ok respL.body := by
    unfold login sessionSend aenter mkClient
    simp [hL, hget, htrue, hdata, htok]
  rw [hc] at hR ⊢
  refine ⟨hlog, ?_, rfl⟩
  unfold reason sessionSend
  simp [hR]

/-- Witness for C6: a mock service answering the login path with token `T1`
and the reasoning path with a successful body; the authenticated call
succeeds and carries `Authorization: Bearer T1`. -/
theorem login_then_call_carries_bearer_token_witness :
    (login demoTransport (aenter (mkClient "http://h")) "user@example.com" "your-password").1 =
      .ok loginOkBody ∧
    (reason demoTransport
        (login demoTransport (aenter (mkClient "http://h")) "user@example.com" "your-password").2.1
        "优化项目开发流程" none none none).1 = .ok reasonOkBody ∧
    (reasonRequest
        (login demoTransport (aenter (mkClient "http://h")) "user@example.com" "your-password").2.1
        "优化项目开发流程" none none none).headers =
      [("Content-Type", "application/json"), ("Authorization", "Bearer " ++ "T1")] :=
  login_then_call_carries_bearer_token demoTransport "http://h" "user@example.com"
    "your-password" "优化项目开发流程" "T1"
    { status := 200, body := loginOkBody } { status := 200, body := reasonOkBody }
    (some (.bool true)) (.obj [("token", .str "T1")]) rfl rfl rfl rfl rfl rfl

/-- C3 counterexample: in the `advanced_example` batch of three concurrent
`reason` dispatches, when the scenario-1 dispatch fails with a transport
error (completion order 0, 1, 2), awaiting the batch raises that error —
the coordinator neither records the error in slot 1 nor returns the other
slots' results, aborting the batch instead of settling every dispatch. -/
theorem advanced_batch_aborts_on_first_failure :
    asyncioGather (advancedTasks flakyScene1 loggedInClient) [0, 1, 2] =
      .error (.clientError "Connection reset") :=
  rfl

/-- C3 (amended): `asyncio.gather` is used with `return_exceptions` at its
default, so a failed individual dispatch makes awaiting the batch raise the
first exception in completion order: no per-slot results are returned, and
the entries scheduled to settle after the failing one are never consulted
for the batch's result (sibling tasks are merely left running, their
results discarded). -/
theorem gather_raises_first_settled_error (tasks : List (Except PyError Json))
    (pre : List Nat) (i : Nat) (post : List Nat) (e : PyError)
    (hpre : ∀ j ∈ pre, ∀ e', tasks.get? j ≠ some (.error e'))
    (hi : tasks.get? i = some (.error e)) :
    asyncioGather tasks (pre ++ i :: post) = .error e := by
  unfold asyncioGather
  suffices h : ∀ (pre' : List Nat), (∀ j ∈ pre', ∀ e', tasks.get? j ≠ some (.error e')) →
      ∀ slots, fillSlots tasks (pre' ++ i :: post) slots = .error e by
    rw [h pre hpre]
  intro pre'
  induction pre' with
  | nil =>
    intro _ slots
    rw [List.nil_append]
    simp only [fillSlots]
    rw [hi]
  | cons k rest ih =>
    intro hp slots
    rw [List.cons_append]
    simp only [fillSlots]
    cases hk : tasks.get? k with
    | none => exact ih (fun j hj => hp j (List.mem_cons_of_mem k hj)) slots
    | some r =>
      cases r with
      | error e' => exact absurd hk (hp k (List.mem_cons_self k rest) e')
      | ok a => exact ih (fun j hj => hp j (List.mem_cons_of_mem k hj)) _

/-- Witness for the amended C3: the scenario-1 dispatch fails and settles
first; the batch raises its error without consulting the later entries. -/
theorem gather_raises_first_settled_error_witness :
    asyncioGather (advancedTasks flakyScene1 loggedInClient) ([] ++ 1 :: [2, 0]) =
      .error (.clientError "Connection reset") :=
  gather_raises_first_settled_error (advancedTasks flakyScene1 loggedInClient)
    [] 1 [2, 0] (.clientError "Connection reset")
    (fun j hj => absurd hj (List.not_mem_nil j)) rfl

/-- C7 counterexample: a batch whose scenario-0 dispatch fails yields no
result sequence at all — awaiting the batch raises the dispatch's error
(here the failing dispatch settles last, completion order 2, 1, 0), so
there is no sequence of length N whose i-th element corresponds to the
i-th input spec. -/
theorem batch_with_failure_yields_no_sequence :
    asyncioGather (advancedTasks flakyScene0 loggedInClient) [2, 1, 0] =
      .error (.clientError "连接超时") :=
  rfl

/-- Proof helper: the effect of one settled successful task on the result
slots — writes the value of input index `i` into slot `i`. -/
def settleSlot (vals : List Json) (sl : List (Option Json)) (i : Nat) : List (Option Json) :=
  match vals[i]? with
  | some v => sl.set i (some v)
  | none => sl

/-- When every task settled successfully, the gather loop never raises and
the slots are exactly the fold of the per-completion slot writes. -/
theorem fillSlots_allOk (vals : List Json) :
    ∀ (sched : List Nat) (slots : List (Option Json)),
    fillSlots (vals.map Except.ok) sched slots =
      Except.ok (sched.foldl (settleSlot vals) slots) := by
  intro sched
  induction sched with
  | nil => intro slots; rfl
  | cons i rest ih =>
    intro slots
    simp only [fillSlots, List.foldl_cons, settleSlot]
    rw [show (vals.map Except.ok).get? i = Option.map Except.ok vals[i]? from by
      rw [List.get?_eq_getElem?, List.getElem?_map]]
    cases hv : vals[i]? with
    | none => simpa using ih slots
    | some v => simpa using ih (slots.set i (some v))

/-- Slot `j` after all completions of the schedule: written with task `j`'s
value iff `j` was scheduled and is a real slot, untouched otherwise. -/
theorem foldl_settleSlot_getElem (vals : List Json) :
    ∀ (sched : List Nat) (slots : List (Option Json)) (j : Nat),
    (sched.foldl (settleSlot vals) slots)[j]? =
      if j ∈ sched ∧ j < vals.length ∧ j < slots.length
      then Option.map some vals[j]?
      else slots[j]? := by
  intro sched
  induction sched with
  | nil => intro slots j; simp
  | cons i rest ih =>
    intro slots j
    rw [List.foldl_cons, ih]
    have hlen : (settleSlot vals slots i).length = slots.length := by
      unfold settleSlot
      cases vals[i]? <;> simp
    rw [hlen]
    by_cases hji : j = i
    · subst hji
      by_cases hjn : j < vals.length
      · cases hv : vals[j]? with
        | none =>
          have hsome : vals[j]? = some (vals.get ⟨j, hjn⟩) := by
            rw [List.getElem?_eq_getElem hjn]
            rfl
          rw [hv] at hsome
          exact absurd hsome (by simp)
        | some v =>
          have hset : settleSlot vals slots j = slots.set j (some v) := by
            simp [settleSlot, hv]
          rw [hset]
          by_cases hjs : j < slots.length
          · have hself : (slots.set j (some v))[j]? = some (some v) :=
              List.getElem?_set_self hjs
            simp [hself, hv, hjn, hjs, List.mem_cons]
          · have hle : slots.length ≤ j := Nat.le_of_not_lt hjs
            rw [List.set_eq_of_length_le hle]
            simp [hjs]
      · have hv : vals[j]? = none := List.getElem?_eq_none (Nat.le_of_not_lt hjn)
        have hset : settleSlot vals slots j = slots := by simp [settleSlot, hv]
        rw [hset]
        simp [hjn]
    · have hget : (settleSlot vals slots i)[j]? = slots[j]? := by
        unfold settleSlot
        cases vals[i]? with
        | none => rfl
        | some v => exact List.getElem?_set_ne (fun h => hji h.symm)
      rw [hget]
      simp [List.mem_cons, hji]

/-- C7 (amended): when every dispatch of the batch succeeds, the gathered
result is a sequence of the same length as the input whose i-th element is
the i-th dispatch's result, in input order, for every completion order (any
permutation of the input indices); a batch containing a failed dispatch
instead raises and yields no result sequence. -/
theorem gather_preserves_input_order (vals : List Json) (sched : List Nat)
    (hperm : sched.Perm (List.range vals.length)) :
    asyncioGather (vals.map Except.ok) sched = Except.ok vals := by
  have hslots : sched.foldl (settleSlot vals) (List.replicate vals.length none) =
      vals.map some := by
    apply List.ext_getElem?
    intro j
    rw [foldl_settleSlot_getElem, List.getElem?_map, List.length_replicate]
    by_cases hj : j < vals.length
    · have hmem : j ∈ sched := hperm.mem_iff.mpr (List.mem_range.mpr hj)
      simp [hmem, hj]
    · have hv : vals[j]? = none := List.getElem?_eq_none (Nat.le_of_not_lt hj)
      simp [hj, hv, List.getElem?_replicate]
  unfold asyncioGather
  rw [List.length_map, fillSlots_allOk, hslots]
  show Except.ok ((vals.map some).filterMap id) = Except.ok vals
  rw [List.filterMap_map, show (id ∘ (some : Json → Option Json)) = some from rfl,
    List.filterMap_some]

/-- Witness for the amended C7: three successful dispatches gathered under
the reordered completion schedule 2, 0, 1 still come back in input order. -/
theorem gather_preserves_input_order_witness :
    asyncioGather ([Json.str "A", Json.str "B", Json.str "C"].map Except.ok) [2, 0, 1] =
      Except.ok [Json.str "A", Json.str "B", Json.str "C"] :=
  gather_preserves_input_order [Json.str "A", Json.str "B", Json.str "C"] [2, 0, 1] (by decide)

/-- Witness for C8: closing an already-closed client raises nothing and
changes nothing, and a scope whose body failed still runs the release. -/
theorem close_idempotent_and_released_on_all_paths_witness :
    aexit (aexit loggedInClient) = aexit loggedInClient ∧
    (withClient "http://localhost:3200"
        (fun c => ((Except.error (PyError.exn "boom") : Except PyError Json), c))).2 =
      aexit ((fun c => ((Except.error (PyError.exn "boom") : Except PyError Json), c))
        (aenter (mkClient "http://localhost:3200"))).2 :=
  ⟨(close_idempotent_and_released_on_all_paths Json).2.1 loggedInClient,
   (close_idempotent_and_released_on_all_paths Json).2.2 "http://localhost:3200"
     (fun c => ((Except.error (PyError.exn "boom") : Except PyError Json), c))⟩

/-- Witness for C9 at a concrete client and mock transport. -/
theorem dispatch_preserves_state_and_never_retries_witness :
    ((reason (mockTransport 200 reasonOkBody) loggedInClient
        "测试推理" none none none).2.1 = loggedInClient ∧
      (reason (mockTransport 200 reasonOkBody) loggedInClient
        "测试推理" none none none).2.2.length ≤ 1) ∧
    ((generate_text (mockTransport 200 reasonOkBody) loggedInClient
        "请简述敏捷开发的核心原则" 500).2.1 = loggedInClient ∧
      (generate_text (mockTransport 200 reasonOkBody) loggedInClient
        "请简述敏捷开发的核心原则" 500).2.2.length ≤ 1) ∧
    ((get_metrics (mockTransport 200 reasonOkBody) loggedInClient).2.1 = loggedInClient ∧
      (get_metrics (mockTransport 200 reasonOkBody) loggedInClient).2.2.length ≤ 1) ∧
    ((get_learning_data (mockTransport 200 reasonOkBody) loggedInClient).2.1 = loggedInClient ∧
      (get_learning_data (mockTransport 200 reasonOkBody) loggedInClient).2.2.length ≤ 1) :=
  dispatch_preserves_state_and_never_retries (mockTransport 200 reasonOkBody) loggedInClient
    "测试推理" none none none "请简述敏捷开发的核心原则" 500
